import Mathlib

/-!
Verification of the herald mailbox/watch engine against its specification.

The definitions below are a shallow embedding of the Python sources
(`src/herald/receiver.py`, `src/herald/sender.py`, `src/herald/__init__.py`).
External effects are made explicit: the result of `json.loads` on a file is an
`Option Json` (`none` = decode or read error), the pending mailbox is an
association list from filename to that parse result, the D-Bus reply of one
dispatch call is a `DispatchResult` parameter, and per-recipient OS-call
success in the sender is a Boolean oracle.  Python `sorted` is modelled by
`List.insertionSort`, a stable sort, on the same key.
-/

namespace Herald

/-- A JSON value, as produced by `json.loads`. -/
inductive Json where
  | null
  | bool (b : Bool)
  | num (n : Int)
  | str (s : String)
  | arr (elems : List Json)
  | obj (fields : List (String × Json))

/-- Python dict lookup on an object decoded by `json.loads`: for duplicate
keys the last occurrence wins (as in a Python dict built from JSON). -/
def Json.get (j : Json) (key : String) : Option Json :=
  match j with
  | .obj fields => fields.foldl (fun acc kv => if kv.1 = key then some kv.2 else acc) none
  | _ => none

/-- Whether the top-level JSON value is an object (`isinstance(data, dict)`). -/
def Json.isObj (j : Json) : Bool :=
  match j with
  | .obj _ => true
  | _ => false

/-- `herald.Urgency` (`__init__.py`): IntEnum LOW = 0, NORMAL = 1, CRITICAL = 2. -/
inductive Urgency where
  | low
  | normal
  | critical
deriving DecidableEq

/-- The IntEnum value of an urgency. -/
def Urgency.value : Urgency → Nat
  | .low => 0
  | .normal => 1
  | .critical => 2

/-- `urgency.name.lower()` as used by the receiver filter. -/
def Urgency.name : Urgency → String
  | .low => "low"
  | .normal => "normal"
  | .critical => "critical"

/-- `Urgency.from_string` (`__init__.py` 14-19): member lookup on `s.upper()`
(modelled char-wise), `ValueError` when the uppercased string is not a member
name. -/
def Urgency.fromString (s : String) : Except String Urgency :=
  match String.mk (s.data.map Char.toUpper) with
  | "LOW" => .ok .low
  | "NORMAL" => .ok .normal
  | "CRITICAL" => .ok .critical
  | _ => .error "Invalid urgency"

/-- Receiver `Config` (`receiver.py` 24-28). -/
structure Config where
  timeout_override : Option Int
  urgency_filter : Option (List String)
  show_body : Bool
deriving DecidableEq

/-- `_CONFIG_DEFAULTS` (`receiver.py` 30-34). -/
def configDefaults : Config :=
  { timeout_override := none, urgency_filter := none, show_body := true }

/-- `_load_config` (`receiver.py` 37-55): merge the user config over the
defaults, copying only the keys present in `_CONFIG_DEFAULTS`.  The user
file is an association list of key/value pairs already decoded by `tomllib`;
heterogeneous TOML values are supplied per recognized key. -/
structure UserConfig where
  timeout_override : Option Int
  urgency_filter : Option (List String)
  show_body : Option Bool
  retention_mode : Option String
  max_history : Option Int
deriving DecidableEq

/-- `_load_config` merge loop (`receiver.py` 49-51): `for key in
_CONFIG_DEFAULTS: if key in user_config: config[key] = user_config[key]`.
Keys absent from `_CONFIG_DEFAULTS` (such as `retention_mode` or
`max_history`) are never copied. -/
def loadConfig (user : Option UserConfig) : Config :=
  match user with
  | none => configDefaults
  | some u =>
    { timeout_override := match u.timeout_override with
        | some t => some t
        | none => configDefaults.timeout_override
      urgency_filter := match u.urgency_filter with
        | some l => some l
        | none => configDefaults.urgency_filter
      show_body := match u.show_body with
        | some b => b
        | none => configDefaults.show_body }

/-- The result of a parsed and defaulted notification dict: the values of
`data["title"]`, `data["body"]`, `data["icon"]`, `data["timeout"]` after the
`setdefault` calls, and the converted `data["urgency"]`. -/
structure ParsedData where
  title : Json
  body : Json
  icon : Json
  timeout : Json
  urgency : Urgency

/-- Outcome of `_parse_notification`: `malformed` models a `None` return,
`exn` models an uncaught exception (the urgency key holds a non-string, so
`s.upper()` raises outside the `except ValueError`), `parsed` a dict return. -/
inductive ParseOutcome where
  | malformed
  | exn
  | parsed (d : ParsedData)

/-- `_parse_notification` (`receiver.py` 58-78).  `contents` is the result of
`json.loads(path.read_text())`: `none` on `JSONDecodeError` or `OSError`. -/
def parseNotification (contents : Option Json) : ParseOutcome :=
  match contents with
  | none => .malformed
  | some data =>
    if data.isObj then
      match data.get "title" with
      | none => .malformed
      | some title =>
        let body := (data.get "body").getD (.str "")
        let icon := (data.get "icon").getD (.str "")
        let timeout := (data.get "timeout").getD (.num (-1))
        match (data.get "urgency").getD (.str "normal") with
        | .str s =>
          match Urgency.fromString s with
          | .ok u => .parsed ⟨title, body, icon, timeout, u⟩
          | .error _ => .parsed ⟨title, body, icon, timeout, .normal⟩
        | _ => .exn
    else .malformed

/-- The D-Bus reply of one `Notify` call: `failure` is an error reply
(`reply.message_type == MessageType.ERROR`, logged at `receiver.py` 250-251). -/
inductive DispatchResult where
  | success
  | failure
deriving DecidableEq

/-- Classification of one `_handle_file` run. -/
inductive Outcome where
  | malformed
  | filtered
  | dispatched (r : DispatchResult)
  | crashed
deriving DecidableEq

/-- The pending mailbox: filename paired with the `json.loads` result of the
contents of that file (`none` = not valid JSON). -/
abbrev Mailbox := List (String × Option Json)

/-- `path.read_text()` followed by `json.loads`: a missing file raises
`OSError`, caught in `_parse_notification` the same way as a decode error. -/
def fileContents (m : Mailbox) (name : String) : Option Json :=
  match m.lookup name with
  | some c => c
  | none => none

/-- `path.unlink()` (`receiver.py` 206): the file is removed from the pending
mailbox. -/
def unlink (m : Mailbox) (name : String) : Mailbox :=
  m.filter (fun e => !(e.1 = name))

/-- The urgency-filter test in `_handle_file` (`receiver.py` 190):
`if urgency_filter and data["urgency"].name.lower() not in urgency_filter`.
An empty list is falsy in Python, hence never filters. -/
def isFiltered (cfg : Config) (u : Urgency) : Bool :=
  match cfg.urgency_filter with
  | some allowed => !allowed.isEmpty && !(allowed.contains u.name)
  | none => false

/-- Result of `_handle_file`: the mailbox after the run, the number of
dispatch (`_send_notification`) calls, the number of `path.unlink()`
attempts, and the classification. -/
structure HandleResult where
  mailbox : Mailbox
  dispatchCalls : Nat
  ackAttempts : Nat
  outcome : Outcome

/-- `_handle_file` (`receiver.py` 184-208): parse, filter or dispatch, then
unconditionally attempt `path.unlink()`.  In the `exn` case the exception
propagates before the unlink, leaving the mailbox untouched. -/
def handleFile (cfg : Config) (disp : DispatchResult) (m : Mailbox) (name : String) :
    HandleResult :=
  match parseNotification (fileContents m name) with
  | .exn => ⟨m, 0, 0, .crashed⟩
  | .malformed => ⟨unlink m name, 0, 1, .malformed⟩
  | .parsed d =>
    if isFiltered cfg d.urgency then ⟨unlink m name, 0, 1, .filtered⟩
    else ⟨unlink m name, 1, 1, .dispatched disp⟩

/-- One iteration of the watch loop body for one event (`receiver.py`
135-138): `p = self.user_dir / ev.name; if p.is_file(): await
self._handle_file(p)`.  Returns the mailbox after the step, the dispatch
count and the unlink-attempt count. -/
def processEvent (cfg : Config) (disp : DispatchResult) (m : Mailbox) (evName : String) :
    Mailbox × Nat × Nat :=
  if (m.lookup evName).isSome then
    let r := handleFile cfg disp m evName
    (r.mailbox, r.dispatchCalls, r.ackAttempts)
  else (m, 0, 0)

/-- The watch-phase drain (`receiver.py` 135-138): events are handled in the
order `read_events` returned them, with no sort.  Returns the final mailbox
and the names handled, in handling order; an uncaught exception aborts the
loop. -/
def drainEvents (cfg : Config) (disp : DispatchResult) :
    Mailbox → List String → Mailbox × List String
  | m, [] => (m, [])
  | m, ev :: rest =>
    if (m.lookup ev).isSome then
      let r := handleFile cfg disp m ev
      match r.outcome with
      | .crashed => (r.mailbox, [ev])
      | _ =>
        let rec2 := drainEvents cfg disp r.mailbox rest
        (rec2.1, ev :: rec2.2)
    else drainEvents cfg disp m rest

/-- Lexicographic comparison of char lists by code point: the order Python
uses to compare strings. -/
def charListLe : List Char → List Char → Bool
  | [], _ => true
  | _ :: _, [] => false
  | a :: as, b :: bs =>
    if a.toNat < b.toNat then true
    else if b.toNat < a.toNat then false
    else charListLe as bs

/-- Python string comparison `a <= b` (code-point lexicographic). -/
def strLe (a b : String) : Bool := charListLe a.data b.data

/-- One entry of `self.user_dir.iterdir()`. -/
structure DirEntry where
  name : String
  isFile : Bool
deriving DecidableEq

/-- The order of the backlog drain (`receiver.py` 107-112): `for p in
sorted(self.user_dir.iterdir(), key=lambda p: p.name)`, skipping names that
start with a dot, handling entries for which `p.is_file()`. -/
def backlogOrder (listing : List DirEntry) : List String :=
  ((List.insertionSort (fun a b => strLe a.name b.name = true) listing).filter
      (fun e => !e.name.startsWith "." && e.isFile)).map (fun e => e.name)

/-- A `pwd.struct_passwd` entry as used by the sender. -/
structure Passwd where
  pw_name : String
  pw_uid : Nat
  pw_gid : Nat
deriving DecidableEq

/-- The filesystem as seen by the sender: the set of directories that exist
and the message files written, path paired with decoded payload. -/
structure FS where
  dirs : List String
  files : List (String × Json)

/-- `BASE_DIR` (`__init__.py` 6). -/
def BASE_DIR : String := "/var/lib/herald"

/-- Modelled from the spec: `VALID_URGENCY` is imported by `sender.py` from
the `herald` package but is defined nowhere under `src/`; the spec fixes the
urgency enum as low, normal, critical (also the CLI `--urgency` choices). -/
def VALID_URGENCY : List String := ["low", "normal", "critical"]

/-- `os.path.join(BASE_DIR, pw.pw_name)` (`sender.py` 87). -/
def userDir (pw : Passwd) : String := BASE_DIR ++ "/" ++ pw.pw_name

/-- `os.path.join(user_dir, ".read")` (`sender.py` 88). -/
def readDir (pw : Passwd) : String := userDir pw ++ "/" ++ ".read"

/-- `os.makedirs(d, exist_ok=True)`: create the directory if absent. -/
def addDir (fs : FS) (d : String) : FS :=
  if d ∈ fs.dirs then fs else { fs with dirs := fs.dirs ++ [d] }

/-- `json.dumps` of the wire payload (`sender.py` 106-112), kept as the
decoded JSON object. -/
def payload (title body urgency icon : String) (timeout : Int) : Json :=
  .obj [("title", .str title), ("body", .str body), ("urgency", .str urgency),
        ("icon", .str icon), ("timeout", .num timeout)]

/-- The per-recipient body of the `send` loop (`sender.py` 115-124):
`_ensure_dir`, write the payload under a fresh filename, `os.chown`; any
`OSError` in the block is caught and logged, so a failed recipient neither
counts nor (in this model) completes its write.  `ok pw` abstracts whether
the OS calls for `pw` all succeed; `fname pw` is the `make_filename()`
result used for that write. -/
def sendStep (ok : Passwd → Bool) (fname : Passwd → String) (pl : Json)
    (acc : Nat × FS) (pw : Passwd) : Nat × FS :=
  if ok pw then
    let fs1 := addDir (addDir acc.2 (userDir pw)) (readDir pw)
    (acc.1 + 1, { fs1 with files := fs1.files ++ [(userDir pw ++ "/" ++ fname pw, pl)] })
  else acc

/-- `send` (`sender.py` 98-126): validate the urgency (raising `ValueError`
before anything else), serialize the payload, then loop over recipients
counting fully successful writes.  Returns the Python return or raise, and
the filesystem afterwards. -/
def send (title body urgency icon : String) (timeout : Int)
    (recipients : List Passwd) (ok : Passwd → Bool) (fname : Passwd → String)
    (fs : FS) : Except String Nat × FS :=
  if urgency ∈ VALID_URGENCY then
    let pl := payload title body urgency icon timeout
    let r := recipients.foldl (sendStep ok fname pl) (0, fs)
    (.ok r.1, r.2)
  else (.error "Invalid urgency", fs)

/-- Modelled from the spec: the `RetentionPolicy` eviction for
`retention_mode = archive` is absent from `src/` (its test,
`tests/test_receiver.py::_rotate_history`, is the only trace); per the spec,
list the archive entries sorted by filename ascending, compute
`excess = count - max_history`, and if positive delete the oldest `excess`
entries. -/
def rotateHistory (entries : List String) (maxHistory : Nat) : List String :=
  let s := List.insertionSort (fun a b => strLe a b = true) entries
  if maxHistory < s.length then s.drop (s.length - maxHistory) else s

/-- Modelled from the spec: `acknowledge` in `retention_mode = archive`
(absent from `src/`): move the file into the Archive subdirectory, then
evict with `rotateHistory`. -/
def acknowledgeArchive (archive : List String) (maxHistory : Nat) (file : String) :
    List String :=
  rotateHistory (file :: archive) maxHistory

/-- Modelled from the spec: the inotify create-event mask for the
DirectoryWatch create-watch.  `IN_CREATE` is imported by `receiver.py` from
`herald.inotify` but absent from `src/herald/inotify.py`; its Linux value is
0x00000100. -/
def IN_CREATE : Nat := 0x00000100

/-- The filesystem history seen by `_wait_for_dir`: the step at which the
recipient directory appears (`none` = never).  Steps: 0 = the first
`is_dir()` check (`receiver.py` 144), 1 = `add_watch` registration (155),
2 = the re-check (158). -/
structure DirHistory where
  created : Option Nat
deriving DecidableEq

/-- Whether the recipient directory exists at step `t` (directories are
never deleted by this system). -/
def dirExistsAt (h : DirHistory) (t : Nat) : Bool :=
  match h.created with
  | some c => c ≤ t
  | none => false

/-- Modelled from the spec: create-watch semantics of the DirectoryWatch
primitive.  A watch with mask `IN_CREATE` registered at step `r` reports a
creation event iff the creation happens strictly after registration; a
creation at or before registration is never reported (the race the second
existence check must close). -/
def watchReports (mask : Nat) (r : Nat) (h : DirHistory) : Bool :=
  (mask == IN_CREATE) &&
    (match h.created with
     | some c => decide (r < c)
     | none => false)

/-- How `_wait_for_dir` returns. -/
inductive WaitOutcome where
  | immediate
  | recheck
  | eventWait
  | hang
deriving DecidableEq

/-- `_wait_for_dir` (`receiver.py` 142-182): return at once if the directory
exists; otherwise register a create-watch on `BASE_DIR`, re-check existence
(returning without any wait if it now exists), and otherwise suspend on the
watch until an event arrives and the directory exists — which, since the
directory is never deleted, happens iff the watch ever fires. -/
def waitForDir (h : DirHistory) : WaitOutcome :=
  if dirExistsAt h 0 then .immediate
  else if dirExistsAt h 2 then .recheck
  else if watchReports IN_CREATE 1 h then .eventWait
  else .hang

/-- `charListLe` is total. -/
theorem charListLe_total : ∀ as bs : List Char,
    charListLe as bs = true ∨ charListLe bs as = true := by
  intro as
  induction as with
  | nil => intro bs; left; rfl
  | cons a as ih =>
    intro bs
    cases bs with
    | nil => right; rfl
    | cons b bs =>
      by_cases h1 : a.toNat < b.toNat
      · left; simp [charListLe, h1]
      · by_cases h2 : b.toNat < a.toNat
        · right; simp [charListLe, h2]
        · rcases ih bs with h | h
          · left; simp [charListLe, h1, h2, h]
          · right; simp [charListLe, h1, h2, h]

/-- Inversion for `charListLe` on cons cells. -/
theorem charListLe_cons_inv {a b : Char} {as bs : List Char}
    (h : charListLe (a :: as) (b :: bs) = true) :
    a.toNat < b.toNat ∨ (a.toNat = b.toNat ∧ charListLe as bs = true) := by
  by_cases h1 : a.toNat < b.toNat
  · exact Or.inl h1
  · by_cases h2 : b.toNat < a.toNat
    · simp [charListLe, h1, h2] at h
    · right
      constructor
      · omega
      · simpa [charListLe, h1, h2] using h

/-- `charListLe` is transitive. -/
theorem charListLe_trans : ∀ as bs cs : List Char,
    charListLe as bs = true → charListLe bs cs = true → charListLe as cs = true := by
  intro as
  induction as with
  | nil => intro bs cs h1 h2; rfl
  | cons a as ih =>
    intro bs cs h1 h2
    cases bs with
    | nil => simp [charListLe] at h1
    | cons b bs =>
      cases cs with
      | nil => simp [charListLe] at h2
      | cons c cs =>
        rcases charListLe_cons_inv h1 with hab | ⟨hab, hab'⟩ <;>
          rcases charListLe_cons_inv h2 with hbc | ⟨hbc, hbc'⟩
        · have : a.toNat < c.toNat := by omega
          simp [charListLe, this]
        · have : a.toNat < c.toNat := by omega
          simp [charListLe, this]
        · have : a.toNat < c.toNat := by omega
          simp [charListLe, this]
        · have hac : a.toNat = c.toNat := by omega
          have g1 : ¬ a.toNat < c.toNat := by omega
          have g2 : ¬ c.toNat < a.toNat := by omega
          simp [charListLe, g1, g2]
          exact ih bs cs hab' hbc'

/-- After `unlink`, the file can no longer be found in the mailbox. -/
theorem lookup_unlink (m : Mailbox) (name : String) :
    (unlink m name).lookup name = none := by
  induction m with
  | nil => rfl
  | cons e rest ih =>
    obtain ⟨k, v⟩ := e
    by_cases h : k = name
    · have hc : (!decide ((k, v).1 = name)) = false := by simp [h]
      rw [unlink, List.filter_cons, hc]
      exact ih
    · have hc : (!decide ((k, v).1 = name)) = true := by simp [h]
      rw [unlink, List.filter_cons, hc]
      simp only [if_true]
      rw [List.lookup]
      have hne : (name == k) = false := by simp [Ne.symm h]
      rw [hne]
      exact ih

/-- Claim C1: every observed message file is acknowledged (removed from the
pending mailbox) exactly once, whatever the processing outcome among
malformed, filtered, dispatch success and dispatch failure, and a dispatch
failure never causes the file to be retried or redelivered on a later watch
iteration. -/
theorem claim1_ack_exactly_once (cfg : Config) (disp : DispatchResult) (m : Mailbox)
    (name : String) (hobs : (m.lookup name).isSome = true)
    (hout : (handleFile cfg disp m name).outcome ≠ .crashed) :
    (handleFile cfg disp m name).ackAttempts = 1 ∧
    (handleFile cfg disp m name).mailbox.lookup name = none ∧
    processEvent cfg disp (handleFile cfg disp m name).mailbox name =
      ((handleFile cfg disp m name).mailbox, 0, 0) := by
  clear hobs
  cases hp : parseNotification (fileContents m name) with
  | exn => exact absurd (by simp [handleFile, hp]) hout
  | malformed =>
    refine ⟨by simp [handleFile, hp], by simp [handleFile, hp, lookup_unlink], ?_⟩
    simp [processEvent, handleFile, hp, lookup_unlink]
  | parsed d =>
    by_cases hf : isFiltered cfg d.urgency
    · refine ⟨by simp [handleFile, hp, hf], by simp [handleFile, hp, hf, lookup_unlink], ?_⟩
      simp [processEvent, handleFile, hp, hf, lookup_unlink]
    · refine ⟨by simp [handleFile, hp, hf], by simp [handleFile, hp, hf, lookup_unlink], ?_⟩
      simp [processEvent, handleFile, hp, hf, lookup_unlink]

/-- Witness for C1 at a concrete well-formed file and a failing dispatch. -/
theorem claim1_ack_exactly_once_witness :
    (handleFile configDefaults .failure
        [("a.json", some (.obj [("title", .str "hi")]))] "a.json").ackAttempts = 1 ∧
    (handleFile configDefaults .failure
        [("a.json", some (.obj [("title", .str "hi")]))] "a.json").mailbox.lookup
        "a.json" = none ∧
    processEvent configDefaults .failure
      (handleFile configDefaults .failure
        [("a.json", some (.obj [("title", .str "hi")]))] "a.json").mailbox "a.json" =
      ((handleFile configDefaults .failure
        [("a.json", some (.obj [("title", .str "hi")]))] "a.json").mailbox, 0, 0) :=
  claim1_ack_exactly_once configDefaults .failure
    [("a.json", some (.obj [("title", .str "hi")]))] "a.json" rfl (by decide)

/-- Claim C2: if the mailbox directory is absent, the Receiver registers a
create-watch on the parent directory and re-checks existence once more
before suspending, so a directory created concurrently with watch
registration (at or before the re-check, hence possibly unreported by the
watch) is detected by the re-check and the Receiver proceeds without
waiting; a directory created at any step at all never leads to an
indefinite hang. -/
theorem claim2_race_free_wait (c : Nat) :
    waitForDir ⟨some c⟩ ≠ .hang ∧
    (0 < c → c ≤ 2 → waitForDir ⟨some c⟩ = .recheck) := by
  constructor
  · by_cases h0 : c ≤ 0
    · simp [waitForDir, dirExistsAt, h0]
    · by_cases h2 : c ≤ 2
      · simp [waitForDir, dirExistsAt, h0, h2]
      · have h1 : 1 < c := by omega
        simp [waitForDir, dirExistsAt, watchReports, h0, h2, h1]
  · intro hpos hle
    have h0 : ¬ c ≤ 0 := by omega
    simp [waitForDir, dirExistsAt, h0, hle]

/-- Witness for C2 at the racing creation step (creation exactly at watch
registration, which the watch itself does not report). -/
theorem claim2_race_free_wait_witness :
    waitForDir ⟨some 1⟩ ≠ .hang ∧ waitForDir ⟨some 1⟩ = .recheck :=
  ⟨(claim2_race_free_wait 1).1, (claim2_race_free_wait 1).2 (by decide) (by decide)⟩

/-- Counterexample to C5 as stated: a JSON object whose `title` is present
but empty is not classified as malformed; it is dispatched (receiver.py 66
only tests key presence, not non-emptiness). -/
theorem claim5_empty_title_dispatched_cex :
    (handleFile configDefaults .success
        [("n.json", some (.obj [("title", .str "")]))] "n.json").dispatchCalls = 1 ∧
    (handleFile configDefaults .success
        [("n.json", some (.obj [("title", .str "")]))] "n.json").outcome ≠ .malformed :=
  ⟨rfl, by decide⟩

/-- Claim C5 (amended): a message file whose contents fail to parse as JSON,
or whose JSON object lacks the required `title` key, is classified as
malformed and acknowledged (removed) with no dispatch call. -/
theorem claim5_malformed_amended (cfg : Config) (disp : DispatchResult) (m : Mailbox)
    (name : String)
    (h : fileContents m name = none ∨
      ∃ fields, fileContents m name = some (.obj fields) ∧
        (Json.obj fields).get "title" = none) :
    (handleFile cfg disp m name).outcome = .malformed ∧
    (handleFile cfg disp m name).dispatchCalls = 0 ∧
    (handleFile cfg disp m name).ackAttempts = 1 ∧
    (handleFile cfg disp m name).mailbox.lookup name = none := by
  have hp : parseNotification (fileContents m name) = .malformed := by
    rcases h with h | ⟨fields, hc, ht⟩
    · rw [h]; rfl
    · rw [hc]
      simp [parseNotification, Json.isObj, ht]
  refine ⟨by simp [handleFile, hp], by simp [handleFile, hp], by simp [handleFile, hp], ?_⟩
  simp [handleFile, hp, lookup_unlink]

/-- Witness for C5 (amended), at an unparsable file and at an object with no
`title` key. -/
theorem claim5_malformed_amended_witness :
    ((handleFile configDefaults .success [("bad.json", none)] "bad.json").outcome =
        .malformed ∧
      (handleFile configDefaults .success [("bad.json", none)] "bad.json").dispatchCalls =
        0 ∧
      (handleFile configDefaults .success [("bad.json", none)] "bad.json").ackAttempts =
        1 ∧
      (handleFile configDefaults .success [("bad.json", none)] "bad.json").mailbox.lookup
        "bad.json" = none) ∧
    ((handleFile configDefaults .success
        [("no.json", some (.obj [("body", .str "x")]))] "no.json").outcome = .malformed ∧
      (handleFile configDefaults .success
        [("no.json", some (.obj [("body", .str "x")]))] "no.json").dispatchCalls = 0 ∧
      (handleFile configDefaults .success
        [("no.json", some (.obj [("body", .str "x")]))] "no.json").ackAttempts = 1 ∧
      (handleFile configDefaults .success
        [("no.json", some (.obj [("body", .str "x")]))] "no.json").mailbox.lookup
        "no.json" = none) :=
  ⟨claim5_malformed_amended configDefaults .success [("bad.json", none)] "bad.json"
      (Or.inl rfl),
    claim5_malformed_amended configDefaults .success
      [("no.json", some (.obj [("body", .str "x")]))] "no.json"
      (Or.inr ⟨[("body", .str "x")], rfl, rfl⟩)⟩

/-- Claim C7: parsing a well-formed message fills the defaults for every
absent optional field — only a title gives empty body, empty icon, timeout
-1 and normal urgency — and any unrecognized urgency string silently maps
to normal. -/
theorem claim7_defaults :
    parseNotification (some (.obj [("title", .str "Just a title")])) =
      .parsed ⟨.str "Just a title", .str "", .str "", .num (-1), .normal⟩ ∧
    ∀ (fields : List (String × Json)) (s msg : String) (d : ParsedData),
      (Json.obj fields).get "urgency" = some (.str s) →
      Urgency.fromString s = .error msg →
      parseNotification (some (.obj fields)) = .parsed d →
      d.urgency = .normal := by
  constructor
  · rfl
  · intro fields s msg d hu hf hp
    rw [parseNotification] at hp
    simp only [Json.isObj, if_true] at hp
    cases ht : (Json.obj fields).get "title" with
    | none => rw [ht] at hp; exact absurd hp (by simp)
    | some title =>
      rw [ht, hu] at hp
      simp only [Option.getD_some] at hp
      rw [hf] at hp
      cases hp
      rfl

/-- Witness for C7 at the unrecognized urgency string `extreme`. -/
theorem claim7_defaults_witness :
    (⟨.str "T", .str "", .str "", .num (-1), .normal⟩ : ParsedData).urgency = .normal :=
  claim7_defaults.2 [("title", .str "T"), ("urgency", .str "extreme")] "extreme"
    "Invalid urgency" ⟨.str "T", .str "", .str "", .num (-1), .normal⟩ rfl rfl rfl

/-- Claim C9: a message file that parses as JSON but whose top-level value
is not an object is classified as malformed and acknowledged with no
dispatch call. -/
theorem claim9_nonobject_malformed (cfg : Config) (disp : DispatchResult) (m : Mailbox)
    (name : String) (j : Json) (hc : fileContents m name = some j)
    (hobj : j.isObj = false) :
    (handleFile cfg disp m name).outcome = .malformed ∧
    (handleFile cfg disp m name).dispatchCalls = 0 ∧
    (handleFile cfg disp m name).ackAttempts = 1 ∧
    (handleFile cfg disp m name).mailbox.lookup name = none := by
  have hp : parseNotification (fileContents m name) = .malformed := by
    rw [hc]
    simp [parseNotification, hobj]
  refine ⟨by simp [handleFile, hp], by simp [handleFile, hp], by simp [handleFile, hp], ?_⟩
  simp [handleFile, hp, lookup_unlink]

/-- Counterexample to C3 as stated: a watch batch reported by the OS as
`[b.json, a.json]` is handled in exactly that order, not re-sorted by name
(the loop at receiver.py 135-138 has no sort). -/
theorem claim3_watch_batch_unsorted_cex :
    (drainEvents configDefaults .success
        [("a.json", some (.obj [("title", .str "A")])),
         ("b.json", some (.obj [("title", .str "B")]))]
        ["b.json", "a.json"]).2 = ["b.json", "a.json"] ∧
    ¬ List.Sorted (fun a b : String => strLe a b = true) ["b.json", "a.json"] := by
  constructor
  · rfl
  · intro h
    have hrel := List.rel_of_sorted_cons h "a.json" (by simp)
    exact absurd hrel (by decide)

/-- Claim C3 (amended): the backlog present before watching starts is
processed sorted by filename, dotfiles excluded; each batch of newly
completed files reported by a watch event is processed in the order the OS
reported the events (a subsequence of the event list), without re-sorting. -/
theorem claim3_ordering_amended :
    (∀ listing : List DirEntry,
      List.Sorted (fun a b : String => strLe a b = true) (backlogOrder listing) ∧
      ∀ n : String, n ∈ backlogOrder listing ↔
        ∃ e : DirEntry, e ∈ listing ∧ e.name = n ∧
          e.name.startsWith "." = false ∧ e.isFile = true) ∧
    (∀ (cfg : Config) (disp : DispatchResult) (m : Mailbox) (events : List String),
      ((drainEvents cfg disp m events).2).Sublist events) := by
  constructor
  · intro listing
    haveI : IsTotal DirEntry (fun a b => strLe a.name b.name = true) :=
      ⟨fun a b => charListLe_total a.name.data b.name.data⟩
    haveI : IsTrans DirEntry (fun a b => strLe a.name b.name = true) :=
      ⟨fun a b c => charListLe_trans a.name.data b.name.data c.name.data⟩
    constructor
    · have hs := List.sorted_insertionSort (fun a b : DirEntry => strLe a.name b.name = true)
        listing
      have hsf := hs.filter (fun e => !e.name.startsWith "." && e.isFile)
      rw [backlogOrder, List.Sorted, List.pairwise_map]
      exact hsf
    · intro n
      rw [backlogOrder]
      simp only [List.mem_map, List.mem_filter, Bool.and_eq_true, Bool.not_eq_true',
        (List.perm_insertionSort (fun a b : DirEntry => strLe a.name b.name = true)
          listing).mem_iff]
      constructor
      · rintro ⟨e, ⟨hmem, hdot, hfile⟩, hname⟩
        exact ⟨e, hmem, hname, hname ▸ hdot, hfile⟩
      · rintro ⟨e, hmem, hname, hdot, hfile⟩
        exact ⟨e, ⟨hmem, hdot, hfile⟩, hname⟩
  · intro cfg disp m events
    induction events generalizing m with
    | nil => simp [drainEvents]
    | cons ev rest ih =>
      simp only [drainEvents]
      by_cases h : (m.lookup ev).isSome
      · rw [if_pos h]
        cases houtcome : (handleFile cfg disp m ev).outcome <;> simp only [houtcome]
        · exact (ih _).cons₂ ev
        · exact (ih _).cons₂ ev
        · exact (ih _).cons₂ ev
        · exact (List.nil_sublist rest).cons₂ ev
      · rw [if_neg h]
        exact (ih m).cons ev

/-- Counterexample to C6 as stated: with `urgency_filter` configured as the
empty list (falsy in Python), a message whose urgency is not in the allowed
set is still dispatched, not filtered. -/
theorem claim6_empty_filter_cex :
    ("low" ∉ ([] : List String)) ∧
    (handleFile ⟨none, some [], true⟩ .success
        [("f.json", some (.obj [("title", .str "T"), ("urgency", .str "low")]))]
        "f.json").dispatchCalls = 1 ∧
    (handleFile ⟨none, some [], true⟩ .success
        [("f.json", some (.obj [("title", .str "T"), ("urgency", .str "low")]))]
        "f.json").outcome ≠ .filtered := by
  refine ⟨by simp, rfl, by decide⟩

/-- Claim C6 (amended): when `urgency_filter` is configured as a non-empty
list, a well-formed message whose urgency is not in the allowed set is
marked filtered (not malformed) and acknowledged with zero dispatch calls,
while a message whose urgency is in the allowed set is dispatched. -/
theorem claim6_urgency_filter_amended (cfg : Config) (disp : DispatchResult) (m : Mailbox)
    (name : String) (allowed : List String) (d : ParsedData)
    (hcfg : cfg.urgency_filter = some allowed) (hne : allowed ≠ [])
    (hp : parseNotification (fileContents m name) = .parsed d) :
    (allowed.contains d.urgency.name = false →
      (handleFile cfg disp m name).outcome = .filtered ∧
      (handleFile cfg disp m name).dispatchCalls = 0 ∧
      (handleFile cfg disp m name).ackAttempts = 1 ∧
      (handleFile cfg disp m name).mailbox.lookup name = none) ∧
    (allowed.contains d.urgency.name = true →
      (handleFile cfg disp m name).outcome = .dispatched disp ∧
      (handleFile cfg disp m name).dispatchCalls = 1 ∧
      (handleFile cfg disp m name).ackAttempts = 1 ∧
      (handleFile cfg disp m name).mailbox.lookup name = none) := by
  have hempty : allowed.isEmpty = false := by
    cases allowed with
    | nil => exact absurd rfl hne
    | cons a l => rfl
  constructor
  · intro hmem
    have hfe : isFiltered cfg d.urgency = true := by
      rw [isFiltered, hcfg]
      show (!allowed.isEmpty && !allowed.contains d.urgency.name) = true
      rw [hempty, hmem]
      rfl
    refine ⟨?_, ?_, ?_, ?_⟩ <;> simp [handleFile, hp, hfe, lookup_unlink]
  · intro hmem
    have hfe : isFiltered cfg d.urgency = false := by
      rw [isFiltered, hcfg]
      show (!allowed.isEmpty && !allowed.contains d.urgency.name) = false
      rw [hempty, hmem]
      rfl
    refine ⟨?_, ?_, ?_, ?_⟩ <;> simp [handleFile, hp, hfe, lookup_unlink]

/-- Witness for C6 (amended) with `urgency_filter = [critical]`: a low
message is filtered with no dispatch, a critical message is dispatched. -/
theorem claim6_urgency_filter_amended_witness :
    ((handleFile ⟨none, some ["critical"], true⟩ .success
        [("low.json", some (.obj [("title", .str "Low"), ("urgency", .str "low")]))]
        "low.json").outcome = .filtered ∧
      (handleFile ⟨none, some ["critical"], true⟩ .success
        [("low.json", some (.obj [("title", .str "Low"), ("urgency", .str "low")]))]
        "low.json").dispatchCalls = 0 ∧
      (handleFile ⟨none, some ["critical"], true⟩ .success
        [("low.json", some (.obj [("title", .str "Low"), ("urgency", .str "low")]))]
        "low.json").ackAttempts = 1 ∧
      (handleFile ⟨none, some ["critical"], true⟩ .success
        [("low.json", some (.obj [("title", .str "Low"), ("urgency", .str "low")]))]
        "low.json").mailbox.lookup "low.json" = none) ∧
    ((handleFile ⟨none, some ["critical"], true⟩ .success
        [("crit.json", some (.obj [("title", .str "C"), ("urgency", .str "critical")]))]
        "crit.json").outcome = .dispatched .success ∧
      (handleFile ⟨none, some ["critical"], true⟩ .success
        [("crit.json", some (.obj [("title", .str "C"), ("urgency", .str "critical")]))]
        "crit.json").dispatchCalls = 1 ∧
      (handleFile ⟨none, some ["critical"], true⟩ .success
        [("crit.json", some (.obj [("title", .str "C"), ("urgency", .str "critical")]))]
        "crit.json").ackAttempts = 1 ∧
      (handleFile ⟨none, some ["critical"], true⟩ .success
        [("crit.json", some (.obj [("title", .str "C"), ("urgency", .str "critical")]))]
        "crit.json").mailbox.lookup "crit.json" = none) :=
  ⟨(claim6_urgency_filter_amended ⟨none, some ["critical"], true⟩ .success
      [("low.json", some (.obj [("title", .str "Low"), ("urgency", .str "low")]))]
      "low.json" ["critical"] ⟨.str "Low", .str "", .str "", .num (-1), .low⟩
      rfl (by simp) rfl).1 rfl,
    (claim6_urgency_filter_amended ⟨none, some ["critical"], true⟩ .success
      [("crit.json", some (.obj [("title", .str "C"), ("urgency", .str "critical")]))]
      "crit.json" ["critical"] ⟨.str "C", .str "", .str "", .num (-1), .critical⟩
      rfl (by simp) rfl).2 rfl⟩

/-- Witness for C9 at a top-level JSON array. -/
theorem claim9_nonobject_malformed_witness :
    (handleFile configDefaults .success [("x.json", some (.arr []))] "x.json").outcome =
        .malformed ∧
    (handleFile configDefaults .success
        [("x.json", some (.arr []))] "x.json").dispatchCalls = 0 ∧
    (handleFile configDefaults .success
        [("x.json", some (.arr []))] "x.json").ackAttempts = 1 ∧
    (handleFile configDefaults .success
        [("x.json", some (.arr []))] "x.json").mailbox.lookup "x.json" = none :=
  claim9_nonobject_malformed configDefaults .success [("x.json", some (.arr []))]
    "x.json" (.arr []) rfl rfl

/-- Claim C4: in archive retention mode, acknowledging moves the file into
the Archive and evicts: with the entries sorted ascending by filename and
`excess = count - max_history` positive, the oldest `excess` entries are
deleted and exactly the `max_history` most recent entries survive (the
surviving list is the final segment of the sorted list, every deleted entry
ordered at or before every survivor). -/
theorem claim4_archive_eviction (archive : List String) (maxHistory : Nat) (file : String)
    (h : maxHistory < (file :: archive).length) :
    acknowledgeArchive archive maxHistory file =
      (List.insertionSort (fun a b => strLe a b = true) (file :: archive)).drop
        ((file :: archive).length - maxHistory) ∧
    (acknowledgeArchive archive maxHistory file).length = maxHistory ∧
    ∀ x ∈ (List.insertionSort (fun a b => strLe a b = true) (file :: archive)).take
        ((file :: archive).length - maxHistory),
      ∀ y ∈ acknowledgeArchive archive maxHistory file, strLe x y = true := by
  have hlen :
      (List.insertionSort (fun a b : String => strLe a b = true) (file :: archive)).length =
        (file :: archive).length :=
    List.length_insertionSort (fun a b : String => strLe a b = true) (file :: archive)
  have ha : acknowledgeArchive archive maxHistory file =
      (List.insertionSort (fun a b => strLe a b = true) (file :: archive)).drop
        ((file :: archive).length - maxHistory) := by
    rw [acknowledgeArchive, rotateHistory]
    simp only [hlen]
    rw [if_pos h]
  refine ⟨ha, ?_, ?_⟩
  · rw [ha, List.length_drop, hlen]
    omega
  · intro x hx y hy
    rw [ha] at hy
    haveI : IsTotal String (fun a b => strLe a b = true) :=
      ⟨fun a b => charListLe_total a.data b.data⟩
    haveI : IsTrans String (fun a b => strLe a b = true) :=
      ⟨fun a b c => charListLe_trans a.data b.data c.data⟩
    have hsort : List.Sorted (fun a b : String => strLe a b = true)
        (List.insertionSort (fun a b : String => strLe a b = true) (file :: archive)) :=
      List.sorted_insertionSort (fun a b : String => strLe a b = true) (file :: archive)
    have hsplit := List.take_append_drop ((file :: archive).length - maxHistory)
      (List.insertionSort (fun a b : String => strLe a b = true) (file :: archive))
    have hpair : List.Pairwise (fun a b : String => strLe a b = true)
        ((List.insertionSort (fun a b : String => strLe a b = true)
            (file :: archive)).take ((file :: archive).length - maxHistory) ++
          (List.insertionSort (fun a b : String => strLe a b = true)
            (file :: archive)).drop ((file :: archive).length - maxHistory)) := by
      rw [hsplit]
      exact hsort
    exact (List.pairwise_append.mp hpair).2.2 x hx y hy

/-- Witness for C4: an archive of five entries plus one new acknowledgment
with `max_history = 3` keeps exactly the three most recent entries. -/
theorem claim4_archive_eviction_witness :
    acknowledgeArchive
        ["0000.json", "0001.json", "0002.json", "0003.json", "0004.json"] 3
        "0005.json" = ["0003.json", "0004.json", "0005.json"] ∧
    (acknowledgeArchive
        ["0000.json", "0001.json", "0002.json", "0003.json", "0004.json"] 3
        "0005.json").length = 3 :=
  ⟨rfl,
    (claim4_archive_eviction
      ["0000.json", "0001.json", "0002.json", "0003.json", "0004.json"] 3
      "0005.json" (by decide)).2.1⟩

/-- `addDir` touches only the directory set, never the files. -/
theorem addDir_files (fs : FS) (d : String) : (addDir fs d).files = fs.files := by
  rw [addDir]
  split <;> rfl

/-- The success counter of the send loop counts exactly the recipients whose
writes fully succeed. -/
theorem sendStep_count (ok : Passwd → Bool) (fname : Passwd → String) (pl : Json) :
    ∀ (l : List Passwd) (n : Nat) (fs : FS),
      (l.foldl (sendStep ok fname pl) (n, fs)).1 = n + l.countP (fun pw => ok pw) := by
  intro l
  induction l with
  | nil => intro n fs; simp
  | cons pw rest ih =>
    intro n fs
    by_cases h : ok pw
    · rw [List.foldl_cons, List.countP_cons_of_pos _ _ (by simpa using h)]
      simp only [sendStep, h, if_true, ih]
      omega
    · rw [List.foldl_cons, List.countP_cons_of_neg _ _ (by simpa using h)]
      simp only [sendStep, h, if_false, ih]
      simp

/-- Files already written are preserved by the rest of the send loop. -/
theorem sendStep_files_mono (ok : Passwd → Bool) (fname : Passwd → String) (pl : Json) :
    ∀ (l : List Passwd) (n : Nat) (fs : FS) (x : String × Json),
      x ∈ fs.files → x ∈ ((l.foldl (sendStep ok fname pl) (n, fs)).2).files := by
  intro l
  induction l with
  | nil => intro n fs x hx; simpa using hx
  | cons pw rest ih =>
    intro n fs x hx
    rw [List.foldl_cons]
    by_cases h : ok pw
    · simp only [sendStep, h, if_true]
      apply ih
      simp only [addDir_files]
      exact List.mem_append_left _ hx
    · simp only [sendStep, h, if_false]
      exact ih _ _ _ hx

/-- Every recipient whose write succeeds ends with its message file present,
independent of the other recipients. -/
theorem sendStep_files_mem (ok : Passwd → Bool) (fname : Passwd → String) (pl : Json) :
    ∀ (l : List Passwd) (n : Nat) (fs : FS) (pw : Passwd),
      pw ∈ l → ok pw = true →
      (userDir pw ++ "/" ++ fname pw, pl) ∈
        ((l.foldl (sendStep ok fname pl) (n, fs)).2).files := by
  intro l
  induction l with
  | nil => intro n fs pw hmem; simp at hmem
  | cons q rest ih =>
    intro n fs pw hmem hok
    rw [List.foldl_cons]
    rcases List.mem_cons.mp hmem with heq | htail
    · subst heq
      simp only [sendStep, hok, if_true]
      apply sendStep_files_mono
      simp only [addDir_files]
      exact List.mem_append_right _ (List.mem_singleton.mpr rfl)
    · exact ih _ _ _ htail hok

/-- Claim C8: `send` returns the count of recipients for which the write
fully succeeded; a provisioning or write failure for one recipient is caught
without affecting the others (each successful recipient ends with its file
written); it never raises for a partial failure, and raises only for an
invalid urgency value. -/
theorem claim8_send_partial_failure (title body urgency icon : String) (timeout : Int)
    (recipients : List Passwd) (ok : Passwd → Bool) (fname : Passwd → String) (fs : FS) :
    (urgency ∈ VALID_URGENCY →
      (send title body urgency icon timeout recipients ok fname fs).1 =
        .ok (recipients.countP (fun pw => ok pw)) ∧
      ∀ pw ∈ recipients, ok pw = true →
        (userDir pw ++ "/" ++ fname pw, payload title body urgency icon timeout) ∈
          ((send title body urgency icon timeout recipients ok fname fs).2).files) ∧
    (urgency ∉ VALID_URGENCY →
      (send title body urgency icon timeout recipients ok fname fs).1 =
        .error "Invalid urgency") ∧
    ∀ e, (send title body urgency icon timeout recipients ok fname fs).1 = .error e →
      urgency ∉ VALID_URGENCY := by
  refine ⟨?_, ?_, ?_⟩
  · intro hv
    constructor
    · simp only [send, if_pos hv]
      rw [sendStep_count]
      simp
    · intro pw hmem hok
      simp only [send, if_pos hv]
      exact sendStep_files_mem _ _ _ recipients 0 fs pw hmem hok
  · intro hv
    simp [send, hv]
  · intro e he hv
    simp [send, hv] at he

/-- Witness for C8: recipients alice (all writes succeed) and bob (write
fails); the success count is 1 and the alice message file is present. -/
theorem claim8_send_partial_failure_witness :
    (send "Hi" "There" "normal" "" (-1)
        [⟨"alice", 1000, 1000⟩, ⟨"bob", 1001, 1001⟩]
        (fun pw => pw.pw_name == "alice") (fun _ => "1.json") ⟨[], []⟩).1 = .ok 1 ∧
    (userDir ⟨"alice", 1000, 1000⟩ ++ "/" ++ "1.json",
        payload "Hi" "There" "normal" "" (-1)) ∈
      ((send "Hi" "There" "normal" "" (-1)
        [⟨"alice", 1000, 1000⟩, ⟨"bob", 1001, 1001⟩]
        (fun pw => pw.pw_name == "alice") (fun _ => "1.json") ⟨[], []⟩).2).files := by
  constructor
  · rw [((claim8_send_partial_failure "Hi" "There" "normal" "" (-1)
        [⟨"alice", 1000, 1000⟩, ⟨"bob", 1001, 1001⟩]
        (fun pw => pw.pw_name == "alice") (fun _ => "1.json") ⟨[], []⟩).1
        (by decide)).1]
    rfl
  · exact ((claim8_send_partial_failure "Hi" "There" "normal" "" (-1)
        [⟨"alice", 1000, 1000⟩, ⟨"bob", 1001, 1001⟩]
        (fun pw => pw.pw_name == "alice") (fun _ => "1.json") ⟨[], []⟩).1
        (by decide)).2 ⟨"alice", 1000, 1000⟩ (by simp) rfl

/-- Claim C10: `send` validates the urgency before any filesystem operation,
so an invalid urgency raises with the filesystem completely unchanged — no
directory created or modified and no message file written. -/
theorem claim10_invalid_urgency_no_fs_change (title body urgency icon : String)
    (timeout : Int) (recipients : List Passwd) (ok : Passwd → Bool)
    (fname : Passwd → String) (fs : FS) (h : urgency ∉ VALID_URGENCY) :
    send title body urgency icon timeout recipients ok fname fs =
      (.error "Invalid urgency", fs) := by
  simp [send, h]

/-- Witness for C10 at the invalid urgency `extreme`. -/
theorem claim10_invalid_urgency_no_fs_change_witness :
    send "T" "" "extreme" "" (-1) [⟨"alice", 1000, 1000⟩] (fun _ => true)
        (fun _ => "1.json") ⟨["/var/lib/herald"], []⟩ =
      (.error "Invalid urgency", ⟨["/var/lib/herald"], []⟩) :=
  claim10_invalid_urgency_no_fs_change "T" "" "extreme" "" (-1)
    [⟨"alice", 1000, 1000⟩] (fun _ => true) (fun _ => "1.json")
    ⟨["/var/lib/herald"], []⟩ (by decide)

end Herald
